import Mathlib

/-!
Verification of the Digital Sabbath content backend (src/main.py, src/schemas.py).

The program is a FastAPI service over a document store.  We give a shallow
embedding: documents are association lists of string keys and `Value`s,
the store is an explicit `DB` state threaded through the handlers, and each
route handler of src/main.py becomes a Lean function on that state.

Datetimes are abstracted as `Nat` ticks ordered as the real timestamps are;
`isoformat` is the (injective) ISO-8601 rendering of such a tick, and the
store-assigned ObjectId is abstracted as a `Nat` rendered by `pyStr`.

The module `database.py` (providing `db`, `create_document`, `get_documents`)
is part of this repository but not under src/; its operations are modelled
from the spec, section 4.2 "Document Store Adapter" (see the doc comments
marked "Modelled from the spec").
-/

/-- A document-field value: the subset of BSON/Python values this service
stores.  Python `None` is `vNull`; a datetime is an abstract tick `vDateTime t`;
a store identifier (ObjectId) is `vId n`. -/
inductive Value where
  | vNull
  | vStr (s : String)
  | vInt (n : Int)
  | vDateTime (t : Nat)
  | vId (n : Nat)
  | vList (xs : List Value)
deriving Repr

mutual

/-- Structural equality of values (Python `==` on these shapes). -/
def Value.beq : Value → Value → Bool
  | .vNull, .vNull => true
  | .vStr a, .vStr b => a == b
  | .vInt a, .vInt b => a == b
  | .vDateTime a, .vDateTime b => a == b
  | .vId a, .vId b => a == b
  | .vList a, .vList b => Value.listBeq a b
  | _, _ => false

/-- Elementwise equality of value lists. -/
def Value.listBeq : List Value → List Value → Bool
  | [], [] => true
  | a :: as, b :: bs => Value.beq a b && Value.listBeq as bs
  | _, _ => false

end

instance : BEq Value := ⟨Value.beq⟩

/-- Python truthiness of a value (`if tag:`, `if not doc:` in src/main.py). -/
def Value.truthy : Value → Bool
  | .vNull => false
  | .vStr s => !s.isEmpty
  | .vInt n => n != 0
  | .vDateTime _ => true
  | .vId _ => true
  | .vList xs => !xs.isEmpty

/-- ISO-8601 rendering of a datetime tick (`datetime.isoformat`), abstracted
as the decimal rendering of the tick: all we use is that it is a string
determined by the tick. -/
def isoformat (t : Nat) : String := toString t

/-- Python `str` applied to a stored value; in the code it is only ever
applied to the `_id` value (an ObjectId). -/
def pyStr : Value → String
  | .vNull => "None"
  | .vStr s => s
  | .vInt n => toString n
  | .vDateTime t => isoformat t
  | .vId n => toString n
  | .vList _ => "[...]"

/-- A stored document: an insertion-ordered mapping from field names to
values, as a Python dict read off a Mongo record. -/
abbrev Doc := List (String × Value)

/-- First value bound to key `k`, if any (`doc[k]` presence). -/
def Doc.get (d : Doc) (k : String) : Option Value :=
  (List.find? (fun p => p.1 == k) d).map (fun p => p.2)

/-- Python `doc.get(k)`: `None` both when the key is absent and when it is
bound to `None`. -/
def Doc.pyGet (d : Doc) (k : String) : Value :=
  (Doc.get d k).getD Value.vNull

/-- Python `d.pop(k, None)`: the removed value (defaulting to `None`) and the
dict without that key. -/
def Doc.pop (d : Doc) (k : String) : Value × Doc :=
  (Doc.pyGet d k, List.filter (fun p => p.1 != k) d)

/-- Python dict assignment `d[k] = v`: update in place when the key exists,
append at the end otherwise. -/
def Doc.set (d : Doc) (k : String) (v : Value) : Doc :=
  if List.any d (fun p => p.1 == k) then
    List.map (fun p => if p.1 == k then (k, v) else p) d
  else
    d ++ [(k, v)]

/-- The per-field conversion applied by the loop in `_serialize`
(src/main.py lines 33-35): datetimes become their isoformat string, every
other value passes through. -/
def serializeField : Value → Value
  | .vDateTime t => Value.vStr (isoformat t)
  | v => v

/-- `_serialize` of src/main.py (lines 25-36) on a present dict: pop `_id`,
bind `id` to `str(_id)` when `_id` was present and not `None`, then render
every datetime field via isoformat.  The `if not doc: return doc` guard is
the `isEmpty` test here; the `None` input case is `serializeOpt`. -/
def serialize (doc : Doc) : Doc :=
  if List.isEmpty doc then doc
  else
    let p := Doc.pop doc "_id"
    let d := match p.1 with
      | Value.vNull => p.2
      | v => Doc.set p.2 "id" (Value.vStr (pyStr v))
    List.map (fun q => (q.1, serializeField q.2)) d

/-- `_serialize` on a possibly-`None` argument: `None` is falsy, so it is
returned unchanged. -/
def serializeOpt : Option Doc → Option Doc
  | none => none
  | some d => some (serialize d)

/-- A filter entry: exact match, or the `$in`-style membership predicate used
for tag filtering.  Modelled from the spec: section 4.2 says a filter maps a
field name to an exact-match value or a "member of set" predicate. -/
inductive QueryPred where
  | eq (v : Value)
  | inSet (vs : List Value)

/-- A query filter: a mapping from field names to predicates. -/
abbrev QueryFilter := List (String × QueryPred)

/-- Modelled from the spec: whether a field value satisfies a predicate.
For `inSet` on a sequence field, "the target field, treated as a set,
intersects the given value" (spec 4.2); an absent field matches nothing. -/
def predMatches (p : QueryPred) (v : Option Value) : Bool :=
  match p, v with
  | _, none => false
  | QueryPred.eq w, some x => Value.beq w x
  | QueryPred.inSet ws, some (Value.vList xs) => List.any xs (fun x => List.any ws (fun w => Value.beq w x))
  | QueryPred.inSet ws, some x => List.any ws (fun w => Value.beq w x)

/-- A document matches a filter when every entry of the filter is satisfied;
the empty filter matches everything. -/
def docMatches (f : QueryFilter) (d : Doc) : Bool :=
  List.all f (fun kp => predMatches kp.2 (Doc.get d kp.1))

/-- Modelled from the spec: the document store state (`database.py` is not
under src/).  Named collections of documents plus the next store-assigned
identifier; "insert assigns a new globally-unique identifier" (spec 4.2). -/
structure DB where
  colls : List (String × List Doc)
  nextId : Nat

/-- The current contents of collection `c` (absent collections are empty). -/
def DB.find (db : DB) (c : String) : List Doc :=
  ((List.find? (fun p => p.1 == c) db.colls).map (fun p => p.2)).getD []

/-- Replace the contents of collection `c`, keeping `nextId`. -/
def DB.setColl (db : DB) (c : String) (docs : List Doc) : DB :=
  if List.any db.colls (fun p => p.1 == c) then
    ⟨List.map (fun p => if p.1 == c then (c, docs) else p) db.colls, db.nextId⟩
  else
    ⟨db.colls ++ [(c, docs)], db.nextId⟩

/-- Modelled from the spec: `create_document` of `database.py`
(spec 4.2 `insert(record) -> id`): stamp the record with a fresh `_id`,
append it to the collection, return the new identifier and bump it. -/
def create_document (c : String) (d : Doc) (db : DB) : Nat × DB :=
  (db.nextId,
   ⟨(DB.setColl db c (DB.find db c ++ [Doc.set d "_id" (Value.vId db.nextId)])).colls,
    db.nextId + 1⟩)

/-- Modelled from the spec: `findOne(filter) -> record|absent` (spec 4.2),
pymongo `find_one`: the first stored document matching the filter. -/
def find_one (db : DB) (c : String) (f : QueryFilter) : Option Doc :=
  List.find? (docMatches f) (DB.find db c)

/-- Modelled from the spec: `get_documents` of `database.py`
(spec 4.2 `findMany(filter, limit)`): the matching documents in stored
order, capped by `limit` when one is given. -/
def get_documents (db : DB) (c : String) (f : QueryFilter) (limit : Option Nat) : List Doc :=
  match limit with
  | some n => List.take n (List.filter (docMatches f) (DB.find db c))
  | none => List.filter (docMatches f) (DB.find db c)

/-- Modelled from the spec: `count(filter) -> integer` (spec 4.2), pymongo
`count_documents`. -/
def count_documents (db : DB) (c : String) (f : QueryFilter) : Nat :=
  List.length (List.filter (docMatches f) (DB.find db c))

/-- `Blogpost` of src/schemas.py: the validated blog-post shape.
`published_at` is an optional datetime tick. -/
structure Blogpost where
  title : String
  slug : String
  excerpt : Option String
  content : String
  cover_image : Option String
  tags : List String
  author : Option String
  published_at : Option Nat
  lang : String

/-- `Tip` of src/schemas.py. -/
structure Tip where
  title : String
  description : String
  category : Option String
  difficulty : Option String
  tags : List String
  lang : String

/-- `Challenge` of src/schemas.py; `duration_days` here is the already
validated value (see `validateChallenge` for the `ge=1, le=90` constraint). -/
structure Challenge where
  title : String
  description : String
  duration_days : Int
  focus : Option String
  tags : List String
  lang : String

/-- `Ebooktest` of src/schemas.py. -/
structure Ebooktest where
  title : String
  description : Option String
  questions : List String
  recommended_reads : List String
  tags : List String
  lang : String

/-- An optional string field as stored: Python `None` becomes `vNull`. -/
def optStr : Option String → Value
  | some s => Value.vStr s
  | none => Value.vNull

/-- An optional datetime field as stored. -/
def optDate : Option Nat → Value
  | some t => Value.vDateTime t
  | none => Value.vNull

/-- The record stored for a blog post payload: its fields in declaration
order, as `create_document` receives them. -/
def Blogpost.toDoc (b : Blogpost) : Doc :=
  [("title", Value.vStr b.title), ("slug", Value.vStr b.slug),
   ("excerpt", optStr b.excerpt), ("content", Value.vStr b.content),
   ("cover_image", optStr b.cover_image),
   ("tags", Value.vList (List.map Value.vStr b.tags)),
   ("author", optStr b.author), ("published_at", optDate b.published_at),
   ("lang", Value.vStr b.lang)]

/-- The record stored for a tip payload. -/
def Tip.toDoc (t : Tip) : Doc :=
  [("title", Value.vStr t.title), ("description", Value.vStr t.description),
   ("category", optStr t.category), ("difficulty", optStr t.difficulty),
   ("tags", Value.vList (List.map Value.vStr t.tags)),
   ("lang", Value.vStr t.lang)]

/-- The record stored for a challenge payload. -/
def Challenge.toDoc (c : Challenge) : Doc :=
  [("title", Value.vStr c.title), ("description", Value.vStr c.description),
   ("duration_days", Value.vInt c.duration_days), ("focus", optStr c.focus),
   ("tags", Value.vList (List.map Value.vStr c.tags)),
   ("lang", Value.vStr c.lang)]

/-- The record stored for an ebook-test payload. -/
def Ebooktest.toDoc (e : Ebooktest) : Doc :=
  [("title", Value.vStr e.title), ("description", optStr e.description),
   ("questions", Value.vList (List.map Value.vStr e.questions)),
   ("recommended_reads", Value.vList (List.map Value.vStr e.recommended_reads)),
   ("tags", Value.vList (List.map Value.vStr e.tags)),
   ("lang", Value.vStr e.lang)]

/-- An untyped Challenge creation request before pydantic validation: the
optional fields may be absent (`none`). -/
structure ChallengeInput where
  title : String
  description : String
  duration_days : Option Int
  focus : Option String
  tags : Option (List String)
  lang : Option String

/-- Pydantic validation of a Challenge (src/schemas.py lines 34-40):
`duration_days: int = Field(7, ge=1, le=90)` — absent defaults to 7, a
present integer must lie in [1, 90]; `tags` defaults to the empty list and
`lang` to "hu". -/
def validateChallenge (inp : ChallengeInput) : Except String Challenge :=
  let dd := inp.duration_days.getD 7
  if 1 ≤ dd ∧ dd ≤ 90 then
    Except.ok
      ⟨inp.title, inp.description, dd, inp.focus, inp.tags.getD [], inp.lang.getD "hu"⟩
  else
    Except.error "ValidationError"

/-- A handler-level failure (`HTTPException` in src/main.py): the status
code and detail string. -/
structure HandlerError where
  status_code : Nat
  detail : String

/-- The tag filter built by every list handler (src/main.py, e.g. lines
92-94): `if tag:` is Python truthiness, so `None` and the empty string both
leave the filter empty; otherwise the filter requires `tags` to contain
`tag` (`{"tags": {"$in": [tag]}}`). -/
def mkTagFilter (tag : Option String) : QueryFilter :=
  match tag with
  | none => []
  | some t => if t.isEmpty then [] else [("tags", QueryPred.inSet [Value.vStr t])]

/-- Python `x or y` on field values: `y` when `x` is falsy. -/
def pyOr (x y : Value) : Value :=
  if Value.truthy x then x else y

/-- The sort key of the blog-post list handler (src/main.py line 97):
`d.get("published_at") or d.get("created_at")`. -/
def blogKey (d : Doc) : Value :=
  pyOr (Doc.pyGet d "published_at") (Doc.pyGet d "created_at")

/-- Python `<` on the sort keys this program produces.  A blog-post sort
key is `published_at or created_at`, i.e. a datetime or `None`
(src/schemas.py declares `published_at` a datetime-or-null field and spec
section 3 makes any creation timestamp a store-stamped datetime), and `<`
succeeds exactly on two datetimes; `valueLt` is that successful order.  A
comparison on any other pair raises `TypeError` in CPython — that failure
path is modelled by the guard of `sortDescByE`, which only falls back to
this total order when every key is a datetime. -/
def valueLt : Value → Value → Bool
  | Value.vDateTime a, Value.vDateTime b => decide (a < b)
  | _, _ => false

/-- Whether a sort key is a datetime, i.e. whether Python `<` is defined
on it against another datetime key. -/
def isDT : Value → Bool
  | Value.vDateTime _ => true
  | _ => false

/-- Insert `x` into a descending-sorted list: `x` goes before the first
element with a strictly smaller key, hence after every earlier element with
an equal key (stability). -/
def insertDescBy (key : Doc → Value) (x : Doc) : List Doc → List Doc
  | [] => [x]
  | y :: ys => if valueLt (key y) (key x) then x :: y :: ys else y :: insertDescBy key x ys

/-- The result of `sorted(docs, key=..., reverse=True)` on the non-raising
path: a stable descending sort by key, as a left-to-right insertion sort. -/
def sortDescBy (key : Doc → Value) (docs : List Doc) : List Doc :=
  List.foldl (fun acc x => insertDescBy key x acc) [] docs

/-- `sorted(docs, key=..., reverse=True)` of src/main.py line 97, with its
failure path.  CPython's sort compares every pair of adjacent elements
while detecting runs, so with at least two elements a single non-datetime
key (e.g. `None`, when a post has neither `published_at` nor `created_at`)
is compared against a neighbour and raises `TypeError`; with at most one
element no comparison happens; otherwise every key is a datetime, every
comparison succeeds, and the stable descending order is returned. -/
def sortDescByE (key : Doc → Value) (docs : List Doc) : Except String (List Doc) :=
  if docs.length ≤ 1 ∨ List.all docs (fun d => isDT (key d)) = true then
    Except.ok (sortDescBy key docs)
  else
    Except.error "TypeError"

/-- `list_blogposts` (src/main.py lines 90-98): fetch with the tag filter
and limit, sort by `published_at or created_at` descending, serialize.
The sort's `TypeError` is uncaught and propagates (a generic 500 per spec
section 7), so the handler is fallible. -/
def list_blogposts (db : DB) (limit : Option Nat) (tag : Option String) :
    Except String (List Doc) :=
  Except.map (List.map serialize)
    (sortDescByE blogKey (get_documents db "blogpost" (mkTagFilter tag) limit))

/-- `get_blogpost` (src/main.py lines 101-106): `find_one({"slug": slug})`,
404 when the result is falsy (absent, or an empty record), else serialize. -/
def get_blogpost (db : DB) (slug : String) : Except HandlerError Doc :=
  match find_one db "blogpost" [("slug", QueryPred.eq (Value.vStr slug))] with
  | none => Except.error ⟨404, "Not found"⟩
  | some d => if List.isEmpty d then Except.error ⟨404, "Not found"⟩ else Except.ok (serialize d)

/-- `create_blogpost` (src/main.py lines 109-118).  The slug-uniqueness
check raises 400 before any insert.  Line 115 is dead code: it queries with
a malformed `_id` filter built from another query and binds an unused
variable; under the store model its result never matches and is discarded
(spec section 9 resolves these dead re-fetch paths the same way).  On
success the handler re-fetches by slug and returns the serialized record,
falling back to `{"id": _id}` only if that fetch finds nothing.  The
returned `DB` is the state after the call (unchanged on the 400 path). -/
def create_blogpost (db : DB) (payload : Blogpost) : Except HandlerError Doc × DB :=
  if (find_one db "blogpost" [("slug", QueryPred.eq (Value.vStr payload.slug))]).isSome then
    (Except.error ⟨400, "Slug already exists"⟩, db)
  else
    let r := create_document "blogpost" payload.toDoc db
    match find_one r.2 "blogpost" [("slug", QueryPred.eq (Value.vStr payload.slug))] with
    | some doc => (Except.ok (serialize doc), r.2)
    | none => (Except.ok [("id", Value.vId r.1)], r.2)

/-- `list_tips` (src/main.py lines 123-129): fetch with the tag filter and
limit and serialize; no sorting. -/
def list_tips (db : DB) (limit : Option Nat) (tag : Option String) : List Doc :=
  List.map serialize (get_documents db "tip" (mkTagFilter tag) limit)

/-- `create_tip` (src/main.py lines 132-140).  Lines 135-138 are dead code:
queries with malformed filters (a record, a bound method) whose results are
discarded — under the store model they match nothing and change nothing
(spec section 9).  The handler returns `{"id": _id}` only. -/
def create_tip (db : DB) (payload : Tip) : Except HandlerError Doc × DB :=
  let r := create_document "tip" payload.toDoc db
  (Except.ok [("id", Value.vId r.1)], r.2)

/-- `list_challenges` (src/main.py lines 145-151). -/
def list_challenges (db : DB) (limit : Option Nat) (tag : Option String) : List Doc :=
  List.map serialize (get_documents db "challenge" (mkTagFilter tag) limit)

/-- `create_challenge` (src/main.py lines 154-157): insert and return
`{"id": _id}`. -/
def create_challenge (db : DB) (payload : Challenge) : Except HandlerError Doc × DB :=
  let r := create_document "challenge" payload.toDoc db
  (Except.ok [("id", Value.vId r.1)], r.2)

/-- `list_ebooktests` (src/main.py lines 162-168). -/
def list_ebooktests (db : DB) (limit : Option Nat) (tag : Option String) : List Doc :=
  List.map serialize (get_documents db "ebooktest" (mkTagFilter tag) limit)

/-- `create_ebooktest` (src/main.py lines 171-174): insert and return
`{"id": _id}`. -/
def create_ebooktest (db : DB) (payload : Ebooktest) : Except HandlerError Doc × DB :=
  let r := create_document "ebooktest" payload.toDoc db
  (Except.ok [("id", Value.vId r.1)], r.2)

/-- The two demo blog posts of `seed_demo` (src/main.py lines 185-202). -/
def demoBlogposts : List Blogpost :=
  [⟨"שבת דיגיטלית: התחלה עדינה", "digital-sabbath-intro",
    some "למה כדאי לעצור ולנשום פעם בשבוע?",
    "# פתיחה\nיום אחד בלי מסכים יכול לשנות הכול.", none,
    ["התחלה", "מודעות"], some "צוות Digital Sabbath", none, "hu"⟩,
   ⟨"טקסים קטנים לשקט גדול", "micro-rituals",
    some "הרגלים קצרים שמייצרים נוכחות.",
    "- נר דולק\n- נשימה מודעת\n- הליכה איטית", none,
    ["טיפים", "מיינדפולנס"], some "אורח", none, "hu"⟩]

/-- The two demo tips of `seed_demo` (src/main.py lines 209-212). -/
def demoTips : List Tip :=
  [⟨"כבה התראות לשעה", "הטלפון לא ייעלם—הרגע כן.", none, none, ["דיגיטל דיטוקס"], "hu"⟩,
   ⟨"צא להליכה בלי אוזניות", "תן לעולם להלחין.", none, none, ["מודעות"], "hu"⟩]

/-- The two demo challenges of `seed_demo` (src/main.py lines 219-222). -/
def demoChallenges : List Challenge :=
  [⟨"24 שעות ללא רשתות", "שמור על סקרנות ללא גלילה", 1, none, ["דיגיטל דיטוקס"], "hu"⟩,
   ⟨"7 ימים של סקרנות איטית", "כל יום טקס קטן אחד", 7, none, [], "hu"⟩]

/-- The demo ebook test of `seed_demo` (src/main.py lines 229-237). -/
def demoEbooktests : List Ebooktest :=
  [⟨"איזה ספר עזר לך להאט?", some "מבחן קצר למציאת הקריאה הבאה",
    ["מה מושך אותך יותר: פילוסופיה או פרקטיקה?", "כמה זמן יש לך ליום?"],
    ["Digital Minimalism", "How To Do Nothing"], ["המלצות"], "hu"⟩]

/-- One collection step of `seed_demo`: if the collection is empty, insert
every demo record and report the count under `label` in the `inserted`
mapping; otherwise leave both untouched. -/
def seedStep (c : String) (label : String) (docs : List Doc)
    (st : List (String × Nat) × DB) : List (String × Nat) × DB :=
  if count_documents st.2 c [] == 0 then
    (st.1 ++ [(label, docs.length)],
     List.foldl (fun db d => (create_document c d db).2) st.2 docs)
  else
    st

/-- `seed_demo` (src/main.py lines 179-242): per collection, insert the
demo dataset when the collection is empty and record how many documents
were inserted; the result is the `inserted` mapping (keys only for touched
collections) and the new store state. -/
def seed_demo (db : DB) : List (String × Nat) × DB :=
  seedStep "ebooktest" "ebooktests" (List.map Ebooktest.toDoc demoEbooktests)
    (seedStep "challenge" "challenges" (List.map Challenge.toDoc demoChallenges)
      (seedStep "tip" "tips" (List.map Tip.toDoc demoTips)
        (seedStep "blogpost" "blogposts" (List.map Blogpost.toDoc demoBlogposts) ([], db))))

/-- Whether the `tags` field of a document, a sequence, contains the tag
`t` (as the claim reads it). -/
def tagsContain (d : Doc) (t : String) : Bool :=
  match Doc.get d "tags" with
  | some (Value.vList xs) => List.any xs (fun x => Value.beq (Value.vStr t) x)
  | _ => false

/-- The `tags` field of a document, when present, is a sequence — true of
every record this service stores. -/
def tagsWellFormed (d : Doc) : Bool :=
  match Doc.get d "tags" with
  | none => true
  | some (Value.vList _) => true
  | some _ => false

/-- A three-post store used as the concrete instance of the listing
claims: three blog posts with `published_at` ticks 1 < 2 < 3, stored in
ascending order. -/
def exPost1 : Doc :=
  [("title", Value.vStr "a"), ("slug", Value.vStr "t1"),
   ("tags", Value.vList [Value.vStr "x"]),
   ("published_at", Value.vDateTime 1), ("_id", Value.vId 1)]

/-- Second concrete post, `published_at` tick 2. -/
def exPost2 : Doc :=
  [("title", Value.vStr "b"), ("slug", Value.vStr "t2"),
   ("tags", Value.vList [Value.vStr "y"]),
   ("published_at", Value.vDateTime 2), ("_id", Value.vId 2)]

/-- Third concrete post, `published_at` tick 3. -/
def exPost3 : Doc :=
  [("title", Value.vStr "c"), ("slug", Value.vStr "t3"),
   ("tags", Value.vList [Value.vStr "x"]),
   ("published_at", Value.vDateTime 3), ("_id", Value.vId 3)]

/-- The concrete store holding the three posts. -/
def exDb : DB := ⟨[("blogpost", [exPost1, exPost2, exPost3])], 4⟩

/-- A stored post shaped like the seeded demo posts: `published_at` is
null and there is no `created_at`, so its sort key is `None`. -/
def errPost1 : Doc :=
  [("title", Value.vStr "a"), ("slug", Value.vStr "e1"),
   ("published_at", Value.vNull), ("_id", Value.vId 0)]

/-- A second post with a `None` sort key. -/
def errPost2 : Doc :=
  [("title", Value.vStr "b"), ("slug", Value.vStr "e2"),
   ("published_at", Value.vNull), ("_id", Value.vId 1)]

/-- A store on which listing blog posts raises `TypeError` in CPython:
two posts whose sort keys are both `None`. -/
def errDb : DB := ⟨[("blogpost", [errPost1, errPost2])], 2⟩

/-- A concrete blog-post payload used to instantiate the creation claims. -/
def wBlog : Blogpost := ⟨"T", "s", none, "C", none, ["x"], none, some 5, "hu"⟩

/-- A concrete stored record used to instantiate the serialization claims. -/
def wDoc : Doc :=
  [("_id", Value.vId 7), ("title", Value.vStr "x"),
   ("slug", Value.vStr "s"), ("published_at", Value.vDateTime 3)]

/-- A concrete store holding `wDoc` in the blog-post collection. -/
def wDb : DB := ⟨[("blogpost", [wDoc])], 8⟩

/-- A concrete store with two tips whose tags differ, used to instantiate
the tag-filter claim. -/
def wTagDb : DB := ⟨[("tip", [exPost1, exPost2])], 0⟩

/-- The state of `seed_demo` after the blog-post step. -/
def seedChain1 (db : DB) : List (String × Nat) × DB :=
  seedStep "blogpost" "blogposts" (List.map Blogpost.toDoc demoBlogposts) ([], db)

/-- The state of `seed_demo` after the blog-post and tip steps. -/
def seedChain2 (db : DB) : List (String × Nat) × DB :=
  seedStep "tip" "tips" (List.map Tip.toDoc demoTips) (seedChain1 db)

/-- The state of `seed_demo` after all steps but the ebook-test one. -/
def seedChain3 (db : DB) : List (String × Nat) × DB :=
  seedStep "challenge" "challenges" (List.map Challenge.toDoc demoChallenges) (seedChain2 db)

/-! ### Helper lemmas about documents and the store -/

mutual

theorem Value.beq_refl : ∀ (v : Value), Value.beq v v = true
  | .vNull => rfl
  | .vStr s => by simp [Value.beq]
  | .vInt n => by simp [Value.beq]
  | .vDateTime t => by simp [Value.beq]
  | .vId n => by simp [Value.beq]
  | .vList xs => Value.listBeq_refl xs

theorem Value.listBeq_refl : ∀ (xs : List Value), Value.listBeq xs xs = true
  | [] => rfl
  | a :: as => by
      simp only [Value.listBeq, Bool.and_eq_true]
      exact ⟨Value.beq_refl a, Value.listBeq_refl as⟩

end

theorem find?_append_none {α : Type} (p : α → Bool) (l1 l2 : List α)
    (h : List.find? p l1 = none) :
    List.find? p (l1 ++ l2) = List.find? p l2 := by
  induction l1 with
  | nil => rfl
  | cons a as ih =>
      by_cases hp : p a = true
      · rw [List.find?_cons_of_pos _ hp] at h
        exact absurd h (by simp)
      · rw [List.find?_cons_of_neg _ (by simpa using hp)] at h
        rw [List.cons_append, List.find?_cons_of_neg _ (by simpa using hp)]
        exact ih h

theorem DB.find_def (db : DB) (c : String) :
    DB.find db c = ((List.find? (fun p => p.1 == c) db.colls).map (fun p => p.2)).getD [] := rfl

theorem DB.find_mk (colls : List (String × List Doc)) (n m : Nat) (c : String) :
    DB.find ⟨colls, n⟩ c = DB.find ⟨colls, m⟩ c := rfl

theorem find?_cons_true {α : Type} (p : α → Bool) (a : α) (l : List α) (h : p a = true) :
    List.find? p (a :: l) = some a := by
  simp [List.find?_cons, h]

theorem find?_cons_false {α : Type} (p : α → Bool) (a : α) (l : List α) (h : p a = false) :
    List.find? p (a :: l) = List.find? p l := by
  simp [List.find?_cons, h]

theorem find?_map_update {β : Type} (l : List (String × β)) (c c2 : String) (v : β)
    (h : c2 ≠ c) :
    List.find? (fun p => p.1 == c2) (List.map (fun p => if p.1 == c then (c, v) else p) l)
      = List.find? (fun p => p.1 == c2) l := by
  induction l with
  | nil => rfl
  | cons a as ih =>
      rw [List.map_cons]
      by_cases hac : a.1 = c
      · rw [if_pos (beq_iff_eq.mpr hac),
          find?_cons_false (fun p => p.1 == c2) (c, v) _
            (beq_eq_false_iff_ne.mpr (Ne.symm h)),
          find?_cons_false (fun p => p.1 == c2) a as
            (beq_eq_false_iff_ne.mpr (hac ▸ Ne.symm h : a.1 ≠ c2))]
        exact ih
      · rw [if_neg (by simp [beq_eq_false_iff_ne.mpr hac])]
        by_cases ha2 : a.1 = c2
        · rw [find?_cons_true (fun p => p.1 == c2) a _ (beq_iff_eq.mpr ha2),
            find?_cons_true (fun p => p.1 == c2) a as (beq_iff_eq.mpr ha2)]
        · rw [find?_cons_false (fun p => p.1 == c2) a _ (beq_eq_false_iff_ne.mpr ha2),
            find?_cons_false (fun p => p.1 == c2) a as (beq_eq_false_iff_ne.mpr ha2)]
          exact ih

theorem find?_map_update_self {β : Type} (l : List (String × β)) (c : String) (v : β)
    (h : List.any l (fun p => p.1 == c) = true) :
    List.find? (fun p => p.1 == c) (List.map (fun p => if p.1 == c then (c, v) else p) l)
      = some (c, v) := by
  induction l with
  | nil => simp at h
  | cons a as ih =>
      rw [List.map_cons]
      by_cases hac : a.1 = c
      · rw [if_pos (beq_iff_eq.mpr hac),
          find?_cons_true (fun p => p.1 == c) (c, v) _ (by simp)]
      · have h1 : (a.1 == c) = false := beq_eq_false_iff_ne.mpr hac
        rw [if_neg (by simp [h1]), find?_cons_false (fun p => p.1 == c) a _ h1]
        simp only [List.any_cons, h1, Bool.false_or] at h
        exact ih h

theorem DB.find_setColl_self (db : DB) (c : String) (docs : List Doc) :
    DB.find (DB.setColl db c docs) c = docs := by
  unfold DB.setColl
  by_cases h : List.any db.colls (fun p => p.1 == c) = true
  · rw [if_pos h, DB.find_def]
    simp only []
    rw [find?_map_update_self db.colls c docs h]
    rfl
  · rw [if_neg h, DB.find_def]
    simp only []
    have hn : List.find? (fun p => p.1 == c) db.colls = none := by
      rw [List.find?_eq_none]
      intro x hx hc
      exact h (List.any_eq_true.mpr ⟨x, hx, hc⟩)
    rw [find?_append_none _ _ _ hn, find?_cons_true (fun p => p.1 == c) (c, docs) [] (by simp)]
    rfl

theorem DB.find_setColl_ne (db : DB) (c c2 : String) (docs : List Doc) (h : c2 ≠ c) :
    DB.find (DB.setColl db c docs) c2 = DB.find db c2 := by
  unfold DB.setColl
  by_cases ha : List.any db.colls (fun p => p.1 == c) = true
  · rw [if_pos ha, DB.find_def, DB.find_def]
    simp only []
    rw [find?_map_update db.colls c c2 docs h]
  · rw [if_neg ha, DB.find_def, DB.find_def]
    simp only []
    by_cases hf : List.find? (fun p => p.1 == c2) db.colls = none
    · rw [find?_append_none _ _ _ hf, hf,
        find?_cons_false (fun p => p.1 == c2) (c, docs) []
          (beq_eq_false_iff_ne.mpr (Ne.symm h))]
      rfl
    · rcases Option.ne_none_iff_exists.mp hf with ⟨x, hx⟩
      rw [List.find?_append, ← hx]
      rfl

theorem DB.find_create_self (c : String) (d : Doc) (db : DB) :
    DB.find (create_document c d db).2 c
      = DB.find db c ++ [Doc.set d "_id" (Value.vId db.nextId)] := by
  rw [show (create_document c d db).2
      = ⟨(DB.setColl db c (DB.find db c ++ [Doc.set d "_id" (Value.vId db.nextId)])).colls,
          db.nextId + 1⟩ from rfl,
    DB.find_mk _ _ (DB.setColl db c (DB.find db c ++ [Doc.set d "_id" (Value.vId db.nextId)])).nextId]
  exact DB.find_setColl_self db c _

theorem DB.find_create_ne (c c2 : String) (d : Doc) (db : DB) (h : c2 ≠ c) :
    DB.find (create_document c d db).2 c2 = DB.find db c2 := by
  rw [show (create_document c d db).2
      = ⟨(DB.setColl db c (DB.find db c ++ [Doc.set d "_id" (Value.vId db.nextId)])).colls,
          db.nextId + 1⟩ from rfl,
    DB.find_mk _ _ (DB.setColl db c (DB.find db c ++ [Doc.set d "_id" (Value.vId db.nextId)])).nextId]
  exact DB.find_setColl_ne db c c2 _ h

theorem nextId_create (c : String) (d : Doc) (db : DB) :
    (create_document c d db).2.nextId = db.nextId + 1 := rfl

theorem Doc.get_cons (a : String × Value) (d : Doc) (k : String) :
    Doc.get (a :: d) k = if a.1 == k then some a.2 else Doc.get d k := by
  by_cases h : (a.1 == k) = true
  · rw [if_pos h]
    unfold Doc.get
    rw [find?_cons_true (fun p => p.1 == k) a d h]
    rfl
  · rw [if_neg h]
    unfold Doc.get
    rw [find?_cons_false (fun p => p.1 == k) a d (by simpa using h)]

theorem Doc.get_map_serializeField (d : Doc) :
    Doc.get (List.map (fun q => (q.1, serializeField q.2)) d)
      = fun k => (Doc.get d k).map serializeField := by
  funext k
  induction d with
  | nil => rfl
  | cons a as ih =>
      rw [List.map_cons, Doc.get_cons, Doc.get_cons]
      by_cases h : (a.1 == k) = true
      · rw [if_pos h, if_pos h]
        rfl
      · rw [if_neg h, if_neg h]
        exact ih

theorem Doc.get_filter_ne (d : Doc) (k k0 : String) (h : k ≠ k0) :
    Doc.get (List.filter (fun p => p.1 != k0) d) k = Doc.get d k := by
  induction d with
  | nil => rfl
  | cons a as ih =>
      by_cases ha : a.1 = k0
      · rw [List.filter_cons, if_neg (show ¬((a.1 != k0) = true) by simp [ha])]
        rw [Doc.get_cons, if_neg (by simp [ha, Ne.symm h]), ih]
      · rw [List.filter_cons, if_pos (show (a.1 != k0) = true by simp [ha])]
        rw [Doc.get_cons, Doc.get_cons, ih]

theorem Doc.get_filter_self (d : Doc) (k0 : String) :
    Doc.get (List.filter (fun p => p.1 != k0) d) k0 = none := by
  induction d with
  | nil => rfl
  | cons a as ih =>
      by_cases ha : a.1 = k0
      · rw [List.filter_cons, if_neg (show ¬((a.1 != k0) = true) by simp [ha])]
        exact ih
      · rw [List.filter_cons, if_pos (show (a.1 != k0) = true by simp [ha])]
        rw [Doc.get_cons, if_neg (by simp [ha]), ih]

theorem Doc.get_none_any_false (d : Doc) (k : String) (h : Doc.get d k = none) :
    List.any d (fun p => p.1 == k) = false := by
  induction d with
  | nil => rfl
  | cons a as ih =>
      rw [Doc.get_cons] at h
      by_cases ha : (a.1 == k) = true
      · rw [if_pos ha] at h
        cases h
      · rw [if_neg ha] at h
        rw [List.any_cons, ih h, Bool.or_false]
        cases hh : (a.1 == k)
        · rfl
        · exact absurd hh ha

theorem Doc.get_set_self (d : Doc) (k : String) (v : Value) :
    Doc.get (Doc.set d k v) k = some v := by
  unfold Doc.set
  by_cases h : List.any d (fun p => p.1 == k) = true
  · rw [if_pos h]
    unfold Doc.get
    rw [find?_map_update_self d k v h]
    rfl
  · rw [if_neg h]
    unfold Doc.get
    have hn : List.find? (fun p => p.1 == k) d = none := by
      rw [List.find?_eq_none]
      intro x hx hc
      exact h (List.any_eq_true.mpr ⟨x, hx, hc⟩)
    rw [find?_append_none _ _ _ hn, find?_cons_true (fun p => p.1 == k) (k, v) [] (by simp)]
    rfl

theorem Doc.get_set_ne (d : Doc) (k k2 : String) (v : Value) (h : k2 ≠ k) :
    Doc.get (Doc.set d k v) k2 = Doc.get d k2 := by
  unfold Doc.set
  by_cases ha : List.any d (fun p => p.1 == k) = true
  · rw [if_pos ha]
    unfold Doc.get
    rw [find?_map_update d k k2 v h]
  · rw [if_neg ha]
    unfold Doc.get
    by_cases hf : List.find? (fun p => p.1 == k2) d = none
    · rw [find?_append_none _ _ _ hf, hf,
        find?_cons_false (fun p => p.1 == k2) (k, v) [] (beq_eq_false_iff_ne.mpr (Ne.symm h))]
      rfl
    · rcases Option.ne_none_iff_exists.mp hf with ⟨x, hx⟩
      rw [List.find?_append, ← hx]
      rfl

theorem match_vNull_ne (v : Value) (a : Doc) (f : Value → Doc) (h : v ≠ Value.vNull) :
    (match v with | Value.vNull => a | w => f w) = f v := by
  cases v with
  | vNull => exact absurd rfl h
  | vStr s => rfl
  | vInt n => rfl
  | vDateTime t => rfl
  | vId n => rfl
  | vList xs => rfl

theorem serialize_ne_nil (d : Doc) (h : d ≠ []) :
    serialize d = List.map (fun q => (q.1, serializeField q.2))
      (match Doc.pyGet d "_id" with
       | Value.vNull => (Doc.pop d "_id").2
       | v => Doc.set (Doc.pop d "_id").2 "id" (Value.vStr (pyStr v))) := by
  cases d with
  | nil => exact absurd rfl h
  | cons a as => rfl

theorem serialize_get_other (d : Doc) (k : String) (h : d ≠ [])
    (h1 : k ≠ "_id") (h2 : k ≠ "id") :
    Doc.get (serialize d) k = (Doc.get d k).map serializeField := by
  rw [serialize_ne_nil d h, Doc.get_map_serializeField]
  cases hv : Doc.pyGet d "_id" with
  | vNull =>
      show (Doc.get (Doc.pop d "_id").2 k).map serializeField = _
      unfold Doc.pop
      rw [Doc.get_filter_ne d k "_id" h1]
  | vStr s =>
      show (Doc.get (Doc.set (Doc.pop d "_id").2 "id" _) k).map serializeField = _
      rw [Doc.get_set_ne _ _ _ _ h2]
      unfold Doc.pop
      rw [Doc.get_filter_ne d k "_id" h1]
  | vInt n =>
      show (Doc.get (Doc.set (Doc.pop d "_id").2 "id" _) k).map serializeField = _
      rw [Doc.get_set_ne _ _ _ _ h2]
      unfold Doc.pop
      rw [Doc.get_filter_ne d k "_id" h1]
  | vDateTime t =>
      show (Doc.get (Doc.set (Doc.pop d "_id").2 "id" _) k).map serializeField = _
      rw [Doc.get_set_ne _ _ _ _ h2]
      unfold Doc.pop
      rw [Doc.get_filter_ne d k "_id" h1]
  | vId n =>
      show (Doc.get (Doc.set (Doc.pop d "_id").2 "id" _) k).map serializeField = _
      rw [Doc.get_set_ne _ _ _ _ h2]
      unfold Doc.pop
      rw [Doc.get_filter_ne d k "_id" h1]
  | vList xs =>
      show (Doc.get (Doc.set (Doc.pop d "_id").2 "id" _) k).map serializeField = _
      rw [Doc.get_set_ne _ _ _ _ h2]
      unfold Doc.pop
      rw [Doc.get_filter_ne d k "_id" h1]

theorem serialize_get_id_none (d : Doc) (h : d ≠ []) :
    Doc.get (serialize d) "_id" = none := by
  rw [serialize_ne_nil d h, Doc.get_map_serializeField]
  cases hv : Doc.pyGet d "_id" with
  | vNull =>
      show (Doc.get (Doc.pop d "_id").2 "_id").map serializeField = _
      unfold Doc.pop
      rw [Doc.get_filter_self]
      rfl
  | vStr s =>
      show (Doc.get (Doc.set (Doc.pop d "_id").2 "id" _) "_id").map serializeField = _
      rw [Doc.get_set_ne _ _ _ _ (by decide)]
      unfold Doc.pop
      rw [Doc.get_filter_self]
      rfl
  | vInt n =>
      show (Doc.get (Doc.set (Doc.pop d "_id").2 "id" _) "_id").map serializeField = _
      rw [Doc.get_set_ne _ _ _ _ (by decide)]
      unfold Doc.pop
      rw [Doc.get_filter_self]
      rfl
  | vDateTime t =>
      show (Doc.get (Doc.set (Doc.pop d "_id").2 "id" _) "_id").map serializeField = _
      rw [Doc.get_set_ne _ _ _ _ (by decide)]
      unfold Doc.pop
      rw [Doc.get_filter_self]
      rfl
  | vId n =>
      show (Doc.get (Doc.set (Doc.pop d "_id").2 "id" _) "_id").map serializeField = _
      rw [Doc.get_set_ne _ _ _ _ (by decide)]
      unfold Doc.pop
      rw [Doc.get_filter_self]
      rfl
  | vList xs =>
      show (Doc.get (Doc.set (Doc.pop d "_id").2 "id" _) "_id").map serializeField = _
      rw [Doc.get_set_ne _ _ _ _ (by decide)]
      unfold Doc.pop
      rw [Doc.get_filter_self]
      rfl

theorem serialize_get_id (d : Doc) (h : d ≠ []) (v : Value)
    (hv : Doc.pyGet d "_id" = v) (hvn : v ≠ Value.vNull) :
    Doc.get (serialize d) "id" = some (Value.vStr (pyStr v)) := by
  rw [serialize_ne_nil d h, hv, Doc.get_map_serializeField]
  cases v with
  | vNull => exact absurd rfl hvn
  | vStr s => simp [Doc.get_set_self, serializeField]
  | vInt n => simp [Doc.get_set_self, serializeField]
  | vDateTime t => simp [Doc.get_set_self, serializeField]
  | vId n => simp [Doc.get_set_self, serializeField]
  | vList xs => simp [Doc.get_set_self, serializeField]

theorem serializeField_eq_self (v : Value) (h : ∀ t, v ≠ Value.vDateTime t) :
    serializeField v = v := by
  cases v with
  | vDateTime t => exact absurd rfl (h t)
  | vNull => rfl
  | vStr s => rfl
  | vInt n => rfl
  | vId n => rfl
  | vList xs => rfl

theorem map_serializeField_id (l : Doc) (h : ∀ p ∈ l, serializeField p.2 = p.2) :
    List.map (fun q => (q.1, serializeField q.2)) l = l := by
  induction l with
  | nil => rfl
  | cons a as ih =>
      rw [List.map_cons, h a (by simp), ih (fun p hp => h p (by simp [hp]))]

theorem serialize_passthrough (d : Doc) (h : d ≠ [])
    (hdt : ∀ p ∈ d, ∀ t, p.2 ≠ Value.vDateTime t)
    (hid : Doc.get d "id" = none)
    (v : Value) (hv : Doc.pyGet d "_id" = v) (hvn : v ≠ Value.vNull) :
    serialize d = List.filter (fun p => p.1 != "_id") d ++ [("id", Value.vStr (pyStr v))] := by
  rw [serialize_ne_nil d h, hv]
  have hpop : Doc.get (Doc.pop d "_id").2 "id" = none := by
    show Doc.get (List.filter (fun p => p.1 != "_id") d) "id" = none
    rw [Doc.get_filter_ne d "id" "_id" (by decide)]
    exact hid
  have hany : List.any (Doc.pop d "_id").2 (fun p => p.1 == "id") = false :=
    Doc.get_none_any_false _ _ hpop
  have hset : Doc.set (Doc.pop d "_id").2 "id" (Value.vStr (pyStr v))
      = (Doc.pop d "_id").2 ++ [("id", Value.vStr (pyStr v))] := by
    unfold Doc.set
    rw [if_neg (by simp [hany])]
  have hmapid : List.map (fun q => (q.1, serializeField q.2)) (Doc.pop d "_id").2
      = (Doc.pop d "_id").2 := by
    apply map_serializeField_id
    intro p hp
    apply serializeField_eq_self
    have hpd : p ∈ d := List.mem_of_mem_filter hp
    exact hdt p hpd
  have hfinal : List.map (fun q => (q.1, serializeField q.2))
        ((Doc.pop d "_id").2 ++ [("id", Value.vStr (pyStr v))])
      = List.filter (fun p => p.1 != "_id") d ++ [("id", Value.vStr (pyStr v))] := by
    rw [List.map_append, hmapid]
    rfl
  cases v with
  | vNull => exact absurd rfl hvn
  | vStr s => simp only [hset]; exact hfinal
  | vInt n => simp only [hset]; exact hfinal
  | vDateTime t => simp only [hset]; exact hfinal
  | vId n => simp only [hset]; exact hfinal
  | vList xs => simp only [hset]; exact hfinal

/-! ### Lemmas about the descending sort of the blog-post list -/

theorem valueLt_asymm (u v : Value) (h : valueLt u v = true) : valueLt v u = false := by
  cases u with
  | vDateTime a =>
      cases v with
      | vDateTime b =>
          simp only [valueLt, decide_eq_true_eq] at h
          simp only [valueLt, decide_eq_false_iff_not]
          omega
      | vNull => rfl
      | vStr s => rfl
      | vInt n => rfl
      | vId n => rfl
      | vList xs => rfl
  | vNull => simp [valueLt] at h
  | vStr s => simp [valueLt] at h
  | vInt n => simp [valueLt] at h
  | vId n => simp [valueLt] at h
  | vList xs => simp [valueLt] at h

theorem valueLt_true_dt (u v : Value) (h : valueLt u v = true) :
    (∃ a, u = Value.vDateTime a) ∧ (∃ b, v = Value.vDateTime b) := by
  cases u with
  | vDateTime a =>
      cases v with
      | vDateTime b => exact ⟨⟨a, rfl⟩, ⟨b, rfl⟩⟩
      | vNull => simp [valueLt] at h
      | vStr s => simp [valueLt] at h
      | vInt n => simp [valueLt] at h
      | vId n => simp [valueLt] at h
      | vList xs => simp [valueLt] at h
  | vNull => simp [valueLt] at h
  | vStr s => simp [valueLt] at h
  | vInt n => simp [valueLt] at h
  | vId n => simp [valueLt] at h
  | vList xs => simp [valueLt] at h

theorem valueLt_trans (u v w : Value) (h1 : valueLt u v = true) (h2 : valueLt v w = true) :
    valueLt u w = true := by
  rcases valueLt_true_dt u v h1 with ⟨⟨a, ha⟩, ⟨b, hb⟩⟩
  rcases valueLt_true_dt v w h2 with ⟨_, ⟨c, hc⟩⟩
  subst ha; subst hb; subst hc
  simp only [valueLt, decide_eq_true_eq] at h1 h2 ⊢
  omega

theorem insertDescBy_perm (key : Doc → Value) (x : Doc) (l : List Doc) :
    List.Perm (insertDescBy key x l) (x :: l) := by
  induction l with
  | nil => exact List.Perm.refl _
  | cons y ys ih =>
      unfold insertDescBy
      by_cases h : valueLt (key y) (key x) = true
      · rw [if_pos h]
      · rw [if_neg h]
        exact List.Perm.trans (List.Perm.cons y ih) (List.Perm.swap x y ys)

theorem insertDescBy_pairwise (key : Doc → Value) (x : Doc) (l : List Doc)
    (h : List.Pairwise (fun a b => valueLt (key a) (key b) = false) l) :
    List.Pairwise (fun a b => valueLt (key a) (key b) = false) (insertDescBy key x l) := by
  induction l with
  | nil => exact List.pairwise_singleton _ _
  | cons y ys ih =>
      rw [List.pairwise_cons] at h
      unfold insertDescBy
      by_cases hc : valueLt (key y) (key x) = true
      · rw [if_pos hc, List.pairwise_cons]
        constructor
        · intro b hb
          rcases List.mem_cons.mp hb with hb | hb
          · subst hb
            exact valueLt_asymm _ _ hc
          · by_contra hxz
            have hxz2 : valueLt (key x) (key b) = true := by
              cases hv : valueLt (key x) (key b)
              · exact absurd hv hxz
              · rfl
            have : valueLt (key y) (key b) = true := valueLt_trans _ _ _ hc hxz2
            rw [h.1 b hb] at this
            cases this
        · rw [List.pairwise_cons]
          exact h
      · rw [if_neg hc, List.pairwise_cons]
        constructor
        · intro b hb
          have hmem := (insertDescBy_perm key x ys).mem_iff.mp hb
          rcases List.mem_cons.mp hmem with hb2 | hb2
          · subst hb2
            cases hv : valueLt (key y) (key b)
            · rfl
            · exact absurd hv hc
          · exact h.1 b hb2
        · exact ih h.2

theorem sortDescBy_perm_aux (key : Doc → Value) (l acc : List Doc) :
    List.Perm (List.foldl (fun a x => insertDescBy key x a) acc l) (l ++ acc) := by
  induction l generalizing acc with
  | nil => exact List.Perm.refl _
  | cons x xs ih =>
      rw [List.foldl_cons, List.cons_append]
      exact List.Perm.trans (ih (insertDescBy key x acc))
        (List.Perm.trans (List.Perm.append_left xs (insertDescBy_perm key x acc))
          List.perm_middle)

theorem sortDescBy_perm (key : Doc → Value) (l : List Doc) :
    List.Perm (sortDescBy key l) l := by
  have := sortDescBy_perm_aux key l []
  rw [List.append_nil] at this
  exact this

theorem sortDescBy_pairwise_aux (key : Doc → Value) (l acc : List Doc)
    (h : List.Pairwise (fun a b => valueLt (key a) (key b) = false) acc) :
    List.Pairwise (fun a b => valueLt (key a) (key b) = false)
      (List.foldl (fun a x => insertDescBy key x a) acc l) := by
  induction l generalizing acc with
  | nil => exact h
  | cons x xs ih =>
      rw [List.foldl_cons]
      exact ih _ (insertDescBy_pairwise key x acc h)

theorem sortDescBy_pairwise (key : Doc → Value) (l : List Doc) :
    List.Pairwise (fun a b => valueLt (key a) (key b) = false) (sortDescBy key l) :=
  sortDescBy_pairwise_aux key l [] (List.Pairwise.nil)

/-! ### Lemmas about the seed route -/

theorem count_documents_nil_filter (db : DB) (c : String) :
    count_documents db c [] = (DB.find db c).length := by
  unfold count_documents
  congr 1
  exact List.filter_eq_self.mpr (fun a _ => rfl)

theorem find_foldl_create_ne (c c2 : String) (h : c2 ≠ c) (ds : List Doc) (db : DB) :
    DB.find (List.foldl (fun db d => (create_document c d db).2) db ds) c2 = DB.find db c2 := by
  induction ds generalizing db with
  | nil => rfl
  | cons d rest ih =>
      rw [List.foldl_cons, ih, DB.find_create_ne c c2 d db h]

theorem find_foldl_create_length (c : String) (ds : List Doc) (db : DB) :
    (DB.find (List.foldl (fun db d => (create_document c d db).2) db ds) c).length
      = (DB.find db c).length + ds.length := by
  induction ds generalizing db with
  | nil => rfl
  | cons d rest ih =>
      rw [List.foldl_cons, ih, DB.find_create_self, List.length_append]
      simp only [List.length_cons, List.length_nil]
      omega

theorem seedStep_skip (c label : String) (docs : List Doc) (st : List (String × Nat) × DB)
    (h : count_documents st.2 c [] ≠ 0) : seedStep c label docs st = st := by
  unfold seedStep
  rw [if_neg (by simpa using h)]

theorem seedStep_run (c label : String) (docs : List Doc) (st : List (String × Nat) × DB)
    (h : count_documents st.2 c [] = 0) :
    seedStep c label docs st
      = (st.1 ++ [(label, docs.length)],
         List.foldl (fun db d => (create_document c d db).2) st.2 docs) := by
  unfold seedStep
  rw [if_pos (by simpa using h)]

theorem seedStep_find_other (c c2 label : String) (docs : List Doc)
    (st : List (String × Nat) × DB) (h : c2 ≠ c) :
    DB.find (seedStep c label docs st).2 c2 = DB.find st.2 c2 := by
  by_cases hc : count_documents st.2 c [] = 0
  · rw [seedStep_run c label docs st hc]
    exact find_foldl_create_ne c c2 h docs st.2
  · rw [seedStep_skip c label docs st hc]

theorem seedStep_find_len_pos (c label : String) (docs : List Doc)
    (st : List (String × Nat) × DB) (hd : docs.length ≠ 0) :
    (DB.find (seedStep c label docs st).2 c).length ≠ 0 := by
  by_cases hc : count_documents st.2 c [] = 0
  · rw [seedStep_run c label docs st hc]
    show (DB.find (List.foldl _ st.2 docs) c).length ≠ 0
    rw [find_foldl_create_length]
    omega
  · rw [seedStep_skip c label docs st hc]
    rw [count_documents_nil_filter] at hc
    exact hc

theorem seedStep_mem_preserved (c label : String) (docs : List Doc)
    (st : List (String × Nat) × DB) (p : String × Nat) (h : p ∈ st.1) :
    p ∈ (seedStep c label docs st).1 := by
  by_cases hc : count_documents st.2 c [] = 0
  · rw [seedStep_run c label docs st hc]
    exact List.mem_append_left _ h
  · rw [seedStep_skip c label docs st hc]
    exact h

theorem seedStep_fst_cases (c label : String) (docs : List Doc)
    (st : List (String × Nat) × DB) (x : String)
    (h : x ∈ List.map Prod.fst (seedStep c label docs st).1) :
    x ∈ List.map Prod.fst st.1 ∨ x = label := by
  by_cases hc : count_documents st.2 c [] = 0
  · rw [seedStep_run c label docs st hc] at h
    show x ∈ _ ∨ _
    rw [List.map_append] at h
    rcases List.mem_append.mp h with h | h
    · exact Or.inl h
    · right
      simpa using h
  · rw [seedStep_skip c label docs st hc] at h
    exact Or.inl h

/-! ### Lemmas about blog-post creation and lookup -/

theorem count_zero_iff_find_none (db : DB) (c : String) (f : QueryFilter) :
    count_documents db c f = 0 ↔ find_one db c f = none := by
  unfold count_documents find_one
  rw [List.length_eq_zero, List.filter_eq_nil, List.find?_eq_none]

theorem blog_newdoc_slug (p : Blogpost) (i : Nat) :
    Doc.get (Doc.set (Blogpost.toDoc p) "_id" (Value.vId i)) "slug"
      = some (Value.vStr p.slug) := by
  rw [Doc.get_set_ne _ _ _ _ (by decide)]
  rfl

theorem blog_newdoc_matches (p : Blogpost) (i : Nat) :
    docMatches [("slug", QueryPred.eq (Value.vStr p.slug))]
      (Doc.set (Blogpost.toDoc p) "_id" (Value.vId i)) = true := by
  unfold docMatches
  rw [List.all_cons, List.all_nil, Bool.and_true]
  show predMatches (QueryPred.eq (Value.vStr p.slug))
    (Doc.get (Doc.set (Blogpost.toDoc p) "_id" (Value.vId i)) "slug") = true
  rw [blog_newdoc_slug]
  show Value.beq (Value.vStr p.slug) (Value.vStr p.slug) = true
  exact Value.beq_refl _

theorem find_one_create_of_none (db : DB) (p : Blogpost)
    (h : find_one db "blogpost" [("slug", QueryPred.eq (Value.vStr p.slug))] = none) :
    find_one (create_document "blogpost" p.toDoc db).2 "blogpost"
        [("slug", QueryPred.eq (Value.vStr p.slug))]
      = some (Doc.set p.toDoc "_id" (Value.vId db.nextId)) := by
  unfold find_one at h ⊢
  rw [DB.find_create_self, find?_append_none _ _ _ h]
  exact find?_cons_true _ _ _ (blog_newdoc_matches p db.nextId)

theorem create_blogpost_of_absent (db : DB) (p : Blogpost)
    (h : find_one db "blogpost" [("slug", QueryPred.eq (Value.vStr p.slug))] = none) :
    create_blogpost db p
      = (Except.ok (serialize (Doc.set p.toDoc "_id" (Value.vId db.nextId))),
         (create_document "blogpost" p.toDoc db).2) := by
  unfold create_blogpost
  rw [if_neg (by simp [h])]
  simp only [find_one_create_of_none db p h]

theorem create_blogpost_of_present (db : DB) (p : Blogpost) (d : Doc)
    (h : find_one db "blogpost" [("slug", QueryPred.eq (Value.vStr p.slug))] = some d) :
    create_blogpost db p = (Except.error ⟨400, "Slug already exists"⟩, db) := by
  unfold create_blogpost
  rw [if_pos (by simp [h])]

theorem count_slug_after_create (db : DB) (p : Blogpost)
    (h0 : count_documents db "blogpost" [("slug", QueryPred.eq (Value.vStr p.slug))] = 0) :
    count_documents (create_document "blogpost" p.toDoc db).2 "blogpost"
      [("slug", QueryPred.eq (Value.vStr p.slug))] = 1 := by
  unfold count_documents at h0 ⊢
  rw [DB.find_create_self, List.filter_append]
  rw [List.length_eq_zero] at h0
  rw [h0, List.nil_append, List.filter_cons,
    if_pos (blog_newdoc_matches p db.nextId)]
  rfl

/-! ### Lemmas about the tag filter -/

theorem mkTagFilter_nonempty (t : String) (ht : t.isEmpty = false) :
    mkTagFilter (some t) = [("tags", QueryPred.inSet [Value.vStr t])] := by
  show (if t.isEmpty = true then [] else [("tags", QueryPred.inSet [Value.vStr t])])
    = [("tags", QueryPred.inSet [Value.vStr t])]
  rw [if_neg (by simp [ht])]

theorem docMatches_tagFilter (d : Doc) (t : String) (hwf : tagsWellFormed d = true) :
    docMatches [("tags", QueryPred.inSet [Value.vStr t])] d = tagsContain d t := by
  unfold tagsWellFormed at hwf
  unfold docMatches tagsContain
  rw [List.all_cons, List.all_nil, Bool.and_true]
  cases hg : Doc.get d "tags" with
  | none => rfl
  | some v =>
      rw [hg] at hwf
      cases v with
      | vList xs =>
          show List.any xs (fun x => List.any [Value.vStr t] (fun w => Value.beq w x))
            = List.any xs (fun x => Value.beq (Value.vStr t) x)
          simp only [List.any_cons, List.any_nil, Bool.or_false]
      | vNull => exact Bool.noConfusion hwf
      | vStr s => exact Bool.noConfusion hwf
      | vInt n => exact Bool.noConfusion hwf
      | vDateTime u => exact Bool.noConfusion hwf
      | vId n => exact Bool.noConfusion hwf

theorem get_documents_subset_matching (db : DB) (c : String) (f : QueryFilter)
    (limit : Option Nat) (d : Doc) (h : d ∈ get_documents db c f limit) :
    d ∈ DB.find db c ∧ docMatches f d = true := by
  unfold get_documents at h
  cases limit with
  | some n =>
      have := List.take_subset n _ h
      exact ⟨(List.mem_filter.mp this).1, (List.mem_filter.mp this).2⟩
  | none =>
      exact ⟨(List.mem_filter.mp h).1, (List.mem_filter.mp h).2⟩

/-! ### Claim theorems -/

/-- C1: if a blog post with the same slug already exists, creation fails
with the duplicate-slug 400 error and performs no insert, so after two
creates with identical slugs (starting from a store with no post of that
slug) the collection holds exactly one document with that slug. -/
theorem blogpost_duplicate_slug_rejected (db : DB) (p1 p2 : Blogpost)
    (hs : p2.slug = p1.slug)
    (h0 : count_documents db "blogpost" [("slug", QueryPred.eq (Value.vStr p1.slug))] = 0) :
    ∃ db1,
      (create_blogpost db p1).2 = db1
      ∧ (∃ d, (create_blogpost db p1).1 = Except.ok d)
      ∧ create_blogpost db1 p2 = (Except.error ⟨400, "Slug already exists"⟩, db1)
      ∧ count_documents db1 "blogpost" [("slug", QueryPred.eq (Value.vStr p1.slug))] = 1 := by
  have hn : find_one db "blogpost" [("slug", QueryPred.eq (Value.vStr p1.slug))] = none :=
    (count_zero_iff_find_none db _ _).mp h0
  refine ⟨(create_document "blogpost" p1.toDoc db).2, ?_, ?_, ?_, ?_⟩
  · rw [create_blogpost_of_absent db p1 hn]
  · rw [create_blogpost_of_absent db p1 hn]
    exact ⟨_, rfl⟩
  · have hf1 : find_one (create_document "blogpost" p1.toDoc db).2 "blogpost"
        [("slug", QueryPred.eq (Value.vStr p2.slug))]
        = some (Doc.set p1.toDoc "_id" (Value.vId db.nextId)) := by
      rw [hs]
      exact find_one_create_of_none db p1 hn
    exact create_blogpost_of_present _ p2 _ hf1
  · exact count_slug_after_create db p1 h0

/-- C1 witness: the duplicate-slug behaviour instantiated at the empty
store and a concrete payload. -/
theorem blogpost_duplicate_slug_rejected_witness :
    wBlog.slug = wBlog.slug
    ∧ count_documents ⟨[], 0⟩ "blogpost" [("slug", QueryPred.eq (Value.vStr wBlog.slug))] = 0
    ∧ ∃ db1,
        (create_blogpost ⟨[], 0⟩ wBlog).2 = db1
        ∧ (∃ d, (create_blogpost ⟨[], 0⟩ wBlog).1 = Except.ok d)
        ∧ create_blogpost db1 wBlog = (Except.error ⟨400, "Slug already exists"⟩, db1)
        ∧ count_documents db1 "blogpost" [("slug", QueryPred.eq (Value.vStr wBlog.slug))] = 1 :=
  ⟨rfl, rfl, blogpost_duplicate_slug_rejected ⟨[], 0⟩ wBlog wBlog rfl rfl⟩

/-- C3: a successful blog-post creation re-fetches the inserted document by
its slug and returns the full serialized record (not only the identifier):
the response is the serialization of the stored record, which the resulting
store indeed holds under that slug. -/
theorem create_blogpost_returns_full_record (db : DB) (p : Blogpost)
    (h : find_one db "blogpost" [("slug", QueryPred.eq (Value.vStr p.slug))] = none) :
    ∃ db1, create_blogpost db p
        = (Except.ok (serialize (Doc.set p.toDoc "_id" (Value.vId db.nextId))), db1)
      ∧ find_one db1 "blogpost" [("slug", QueryPred.eq (Value.vStr p.slug))]
          = some (Doc.set p.toDoc "_id" (Value.vId db.nextId)) :=
  ⟨(create_document "blogpost" p.toDoc db).2,
   create_blogpost_of_absent db p h, find_one_create_of_none db p h⟩

/-- C3 witness: the full-record response instantiated at the empty store. -/
theorem create_blogpost_returns_full_record_witness :
    find_one ⟨[], 0⟩ "blogpost" [("slug", QueryPred.eq (Value.vStr wBlog.slug))] = none
    ∧ ∃ db1, create_blogpost ⟨[], 0⟩ wBlog
        = (Except.ok (serialize (Doc.set wBlog.toDoc "_id" (Value.vId (0 : Nat)))), db1)
      ∧ find_one db1 "blogpost" [("slug", QueryPred.eq (Value.vStr wBlog.slug))]
          = some (Doc.set wBlog.toDoc "_id" (Value.vId (0 : Nat))) :=
  ⟨rfl, create_blogpost_returns_full_record ⟨[], 0⟩ wBlog rfl⟩

/-- C4: creating a Tip, Challenge or EbookTest returns only the newly
assigned identifier, as a one-field record. -/
theorem create_non_blog_returns_only_id (db : DB) (t : Tip) (c : Challenge) (e : Ebooktest) :
    (create_tip db t).1 = Except.ok [("id", Value.vId db.nextId)]
  ∧ (create_challenge db c).1 = Except.ok [("id", Value.vId db.nextId)]
  ∧ (create_ebooktest db e).1 = Except.ok [("id", Value.vId db.nextId)] :=
  ⟨rfl, rfl, rfl⟩

/-- C5: Challenge validation accepts `duration_days` in [1, 90] unchanged,
rejects integers outside that range with a ValidationError, and defaults an
absent field to 7. -/
theorem challenge_duration_days_validation (inp : ChallengeInput) :
    (∀ v, inp.duration_days = some v →
      ((1 ≤ v ∧ v ≤ 90) →
          ∃ c, validateChallenge inp = Except.ok c ∧ c.duration_days = v)
      ∧ ((v < 1 ∨ 90 < v) →
          validateChallenge inp = Except.error "ValidationError"))
  ∧ (inp.duration_days = none →
      ∃ c, validateChallenge inp = Except.ok c ∧ c.duration_days = 7) := by
  constructor
  · intro v hv
    constructor
    · intro hin
      unfold validateChallenge
      rw [hv, Option.getD_some, if_pos hin]
      exact ⟨_, rfl, rfl⟩
    · intro hout
      unfold validateChallenge
      rw [hv, Option.getD_some, if_neg (by omega)]
  · intro hn
    unfold validateChallenge
    rw [hn, Option.getD_none, if_pos (by omega)]
    exact ⟨_, rfl, rfl⟩

/-- C5 witness: 91 is rejected, an in-range 30 is kept, and an absent field
defaults to 7, at concrete inputs. -/
theorem challenge_duration_days_validation_witness :
    validateChallenge ⟨"t", "d", some 91, none, none, none⟩ = Except.error "ValidationError"
  ∧ (∃ c, validateChallenge ⟨"t", "d", some 30, none, none, none⟩ = Except.ok c
        ∧ c.duration_days = 30)
  ∧ (∃ c, validateChallenge ⟨"t", "d", none, none, none, none⟩ = Except.ok c
        ∧ c.duration_days = 7) :=
  ⟨((challenge_duration_days_validation ⟨"t", "d", some 91, none, none, none⟩).1 91 rfl).2
      (by omega),
   ((challenge_duration_days_validation ⟨"t", "d", some 30, none, none, none⟩).1 30 rfl).1
      (by omega),
   (challenge_duration_days_validation ⟨"t", "d", none, none, none, none⟩).2 rfl⟩

theorem exDb_keys :
    ∀ d ∈ get_documents exDb "blogpost" (mkTagFilter none) (some 20),
      ∃ t, blogKey d = Value.vDateTime t := by
  intro d hd
  have hd2 : d ∈ [exPost1, exPost2, exPost3] := hd
  rcases List.mem_cons.mp hd2 with h | h
  · exact ⟨1, by rw [h]; rfl⟩
  · rcases List.mem_cons.mp h with h2 | h2
    · exact ⟨2, by rw [h2]; rfl⟩
    · rcases List.mem_cons.mp h2 with h3 | h3
      · exact ⟨3, by rw [h3]; rfl⟩
      · exact absurd h3 (List.not_mem_nil d)

/-- C2: every sequence the blog-post list operation returns is the
serialization of a permutation of the fetched documents, pairwise
descending in the `published_at or created_at` key; when every fetched
document's key is a datetime the operation does return such a sequence; on
the concrete store with ticks 1 < 2 < 3 stored ascending it returns them in
the order 3, 2, 1; and on a store of two posts whose keys are both `None`
it propagates CPython's `TypeError` instead of returning. -/
theorem list_blogposts_sorted_desc :
    (∀ (db : DB) (limit : Option Nat) (tag : Option String) (out : List Doc),
      list_blogposts db limit tag = Except.ok out →
      ∃ l, out = List.map serialize l
        ∧ List.Perm l (get_documents db "blogpost" (mkTagFilter tag) limit)
        ∧ List.Pairwise (fun a b => valueLt (blogKey a) (blogKey b) = false) l)
  ∧ (∀ (db : DB) (limit : Option Nat) (tag : Option String),
      (∀ d ∈ get_documents db "blogpost" (mkTagFilter tag) limit,
          ∃ t, blogKey d = Value.vDateTime t) →
      list_blogposts db limit tag
        = Except.ok (List.map serialize
            (sortDescBy blogKey (get_documents db "blogpost" (mkTagFilter tag) limit)))
      ∧ List.Perm (sortDescBy blogKey (get_documents db "blogpost" (mkTagFilter tag) limit))
          (get_documents db "blogpost" (mkTagFilter tag) limit)
      ∧ List.Pairwise (fun a b => valueLt (blogKey a) (blogKey b) = false)
          (sortDescBy blogKey (get_documents db "blogpost" (mkTagFilter tag) limit)))
  ∧ list_blogposts exDb (some 20) none
      = Except.ok [serialize exPost3, serialize exPost2, serialize exPost1]
  ∧ list_blogposts errDb (some 20) none = Except.error "TypeError" := by
  refine ⟨?_, ?_, rfl, rfl⟩
  · intro db limit tag out h
    unfold list_blogposts sortDescByE at h
    by_cases hc : (get_documents db "blogpost" (mkTagFilter tag) limit).length ≤ 1
        ∨ List.all (get_documents db "blogpost" (mkTagFilter tag) limit)
            (fun d => isDT (blogKey d)) = true
    · rw [if_pos hc] at h
      refine ⟨sortDescBy blogKey (get_documents db "blogpost" (mkTagFilter tag) limit),
        ?_, sortDescBy_perm _ _, sortDescBy_pairwise _ _⟩
      simp only [Except.map] at h
      exact (Except.ok.inj h).symm
    · rw [if_neg hc] at h
      simp only [Except.map] at h
      exact Except.noConfusion h
  · intro db limit tag hkeys
    have hall : List.all (get_documents db "blogpost" (mkTagFilter tag) limit)
        (fun d => isDT (blogKey d)) = true := by
      rw [List.all_eq_true]
      intro d hd
      rcases hkeys d hd with ⟨t, ht⟩
      rw [ht]
      rfl
    refine ⟨?_, sortDescBy_perm _ _, sortDescBy_pairwise _ _⟩
    unfold list_blogposts sortDescByE
    rw [if_pos (Or.inr hall)]
    rfl

/-- C2 witness: the sorted-return contract instantiated at the concrete
three-post store, whose sort keys are all datetimes. -/
theorem list_blogposts_sorted_desc_witness :
    (∀ d ∈ get_documents exDb "blogpost" (mkTagFilter none) (some 20),
        ∃ t, blogKey d = Value.vDateTime t)
    ∧ (list_blogposts exDb (some 20) none
        = Except.ok (List.map serialize
            (sortDescBy blogKey (get_documents exDb "blogpost" (mkTagFilter none) (some 20))))
       ∧ List.Perm (sortDescBy blogKey (get_documents exDb "blogpost" (mkTagFilter none) (some 20)))
           (get_documents exDb "blogpost" (mkTagFilter none) (some 20))
       ∧ List.Pairwise (fun a b => valueLt (blogKey a) (blogKey b) = false)
           (sortDescBy blogKey (get_documents exDb "blogpost" (mkTagFilter none) (some 20))))
    ∧ (∃ l, [serialize exPost3, serialize exPost2, serialize exPost1] = List.map serialize l
        ∧ List.Perm l (get_documents exDb "blogpost" (mkTagFilter none) (some 20))
        ∧ List.Pairwise (fun a b => valueLt (blogKey a) (blogKey b) = false) l) :=
  ⟨exDb_keys,
   list_blogposts_sorted_desc.2.1 exDb (some 20) none exDb_keys,
   list_blogposts_sorted_desc.1 exDb (some 20) none
     [serialize exPost3, serialize exPost2, serialize exPost1] rfl⟩

/-- C10: the empty-string tag is falsy, so it builds the empty filter and
each list endpoint behaves exactly as with no tag parameter. -/
theorem list_empty_tag_no_filter (db : DB) (limit : Option Nat) :
    list_blogposts db limit (some "") = list_blogposts db limit none
  ∧ list_tips db limit (some "") = list_tips db limit none
  ∧ list_challenges db limit (some "") = list_challenges db limit none
  ∧ list_ebooktests db limit (some "") = list_ebooktests db limit none := by
  have h : mkTagFilter (some "") = mkTagFilter none := by
    show (if ("".isEmpty) = true then ([] : QueryFilter)
        else [("tags", QueryPred.inSet [Value.vStr ""])]) = mkTagFilter none
    rw [if_pos (show ("".isEmpty) = true from rfl)]
    rfl
  refine ⟨?_, ?_, ?_, ?_⟩
  · simp only [list_blogposts, h]
  · simp only [list_tips, h]
  · simp only [list_challenges, h]
  · simp only [list_ebooktests, h]

theorem find_one_slug_ne_nil (db : DB) (c s : String) (d : Doc)
    (h : find_one db c [("slug", QueryPred.eq (Value.vStr s))] = some d) : d ≠ [] := by
  unfold find_one at h
  have hm := List.find?_some h
  intro hnil
  rw [hnil] at hm
  exact Bool.noConfusion hm

/-- C6: serialization drops the internal `_id`, adds `id` bound to the
string rendering of the identifier, renders every datetime field as its
ISO-8601 string, passes every other field through unchanged, maps an
empty/absent record to itself, and on a record with no datetime fields is a
pure pass-through except for the `id` rename. -/
theorem serialize_contract (d : Doc) (hne : d ≠ []) :
    (∀ k, k ≠ "_id" → k ≠ "id" →
        Doc.get (serialize d) k = Option.map serializeField (Doc.get d k))
  ∧ Doc.get (serialize d) "_id" = none
  ∧ (∀ v, Doc.pyGet d "_id" = v → v ≠ Value.vNull →
        Doc.get (serialize d) "id" = some (Value.vStr (pyStr v)))
  ∧ (∀ k t, Doc.get d k = some (Value.vDateTime t) → k ≠ "_id" → k ≠ "id" →
        Doc.get (serialize d) k = some (Value.vStr (isoformat t)))
  ∧ ((∀ p ∈ d, ∀ t, p.2 ≠ Value.vDateTime t) → Doc.get d "id" = none →
      ∀ v, Doc.pyGet d "_id" = v → v ≠ Value.vNull →
        serialize d = List.filter (fun p => p.1 != "_id") d ++ [("id", Value.vStr (pyStr v))])
  ∧ serialize [] = [] ∧ serializeOpt none = none := by
  refine ⟨?_, serialize_get_id_none d hne, ?_, ?_, ?_, rfl, rfl⟩
  · intro k h1 h2
    exact serialize_get_other d k hne h1 h2
  · intro v hv hvn
    exact serialize_get_id d hne v hv hvn
  · intro k t hk h1 h2
    rw [serialize_get_other d k hne h1 h2, hk]
    rfl
  · intro hdt hid v hv hvn
    exact serialize_passthrough d hne hdt hid v hv hvn

/-- C6 witness: the serialization contract applied to a concrete stored
record with an identifier and a datetime field. -/
theorem serialize_contract_witness :
    (wDoc ≠ [])
    ∧ Doc.get (serialize wDoc) "_id" = none
    ∧ Doc.get (serialize wDoc) "id" = some (Value.vStr (pyStr (Value.vId 7)))
    ∧ Doc.get (serialize wDoc) "published_at" = some (Value.vStr (isoformat 3))
    ∧ Doc.get (serialize wDoc) "title" = Option.map serializeField (Doc.get wDoc "title") :=
  ⟨List.cons_ne_nil _ _,
   (serialize_contract wDoc (List.cons_ne_nil _ _)).2.1,
   (serialize_contract wDoc (List.cons_ne_nil _ _)).2.2.1 (Value.vId 7) rfl (by simp),
   (serialize_contract wDoc (List.cons_ne_nil _ _)).2.2.2.1 "published_at" 3 rfl
     (by decide) (by decide),
   (serialize_contract wDoc (List.cons_ne_nil _ _)).1 "title" (by decide) (by decide)⟩

/-- C7: looking a blog post up by slug fails with the 404 error when no
post matches, and otherwise returns the serialized record, whose `id` is
the string rendering of the identifier and whose `published_at` and
`created_at`, when present as datetimes, are ISO-8601 strings. -/
theorem get_blogpost_contract (db : DB) (slug : String) :
    (find_one db "blogpost" [("slug", QueryPred.eq (Value.vStr slug))] = none →
      get_blogpost db slug = Except.error ⟨404, "Not found"⟩)
  ∧ (∀ d, find_one db "blogpost" [("slug", QueryPred.eq (Value.vStr slug))] = some d →
      get_blogpost db slug = Except.ok (serialize d)
      ∧ (∀ n, Doc.pyGet d "_id" = Value.vId n →
          Doc.get (serialize d) "id" = some (Value.vStr (pyStr (Value.vId n))))
      ∧ (∀ t, Doc.get d "published_at" = some (Value.vDateTime t) →
          Doc.get (serialize d) "published_at" = some (Value.vStr (isoformat t)))
      ∧ (∀ t, Doc.get d "created_at" = some (Value.vDateTime t) →
          Doc.get (serialize d) "created_at" = some (Value.vStr (isoformat t)))) := by
  constructor
  · intro h
    unfold get_blogpost
    rw [h]
  · intro d hd
    have hne : d ≠ [] := find_one_slug_ne_nil db "blogpost" slug d hd
    refine ⟨?_, ?_, ?_, ?_⟩
    · unfold get_blogpost
      rw [hd]
      cases d with
      | nil => exact absurd rfl hne
      | cons a as => rfl
    · intro n hn
      exact serialize_get_id d hne (Value.vId n) hn (by simp)
    · intro t ht
      rw [serialize_get_other d "published_at" hne (by decide) (by decide), ht]
      rfl
    · intro t ht
      rw [serialize_get_other d "created_at" hne (by decide) (by decide), ht]
      rfl

/-- C7 witness: the lookup contract at a concrete store — a missing slug
yields the 404 error and the present slug yields the serialized record. -/
theorem get_blogpost_contract_witness :
    find_one wDb "blogpost" [("slug", QueryPred.eq (Value.vStr "zz"))] = none
    ∧ get_blogpost wDb "zz" = Except.error ⟨404, "Not found"⟩
    ∧ find_one wDb "blogpost" [("slug", QueryPred.eq (Value.vStr "s"))] = some wDoc
    ∧ get_blogpost wDb "s" = Except.ok (serialize wDoc) :=
  ⟨rfl, (get_blogpost_contract wDb "zz").1 rfl, rfl,
   ((get_blogpost_contract wDb "s").2 wDoc rfl).1⟩

/-- C8: with a non-empty tag, every listed document's tags sequence
contains the tag, and every stored document whose tags sequence does not
contain it is excluded; the four handlers all consume exactly this filter
(and the empty filter when no tag is given, `mkTagFilter none = []`). -/
theorem listing_tag_filter (db : DB) (c t : String) (limit : Option Nat)
    (ht : t.isEmpty = false)
    (hwf : ∀ d ∈ DB.find db c, tagsWellFormed d = true) :
    (∀ d ∈ get_documents db c (mkTagFilter (some t)) limit, tagsContain d t = true)
  ∧ (∀ d ∈ DB.find db c, tagsContain d t = false →
        d ∉ get_documents db c (mkTagFilter (some t)) limit)
  ∧ mkTagFilter none = []
  ∧ list_blogposts db limit (some t)
      = Except.map (List.map serialize)
          (sortDescByE blogKey (get_documents db "blogpost" (mkTagFilter (some t)) limit))
  ∧ list_tips db limit (some t)
      = List.map serialize (get_documents db "tip" (mkTagFilter (some t)) limit)
  ∧ list_challenges db limit (some t)
      = List.map serialize (get_documents db "challenge" (mkTagFilter (some t)) limit)
  ∧ list_ebooktests db limit (some t)
      = List.map serialize (get_documents db "ebooktest" (mkTagFilter (some t)) limit) := by
  refine ⟨?_, ?_, rfl, rfl, rfl, rfl, rfl⟩
  · intro d hd
    have hm := get_documents_subset_matching db c _ limit d hd
    have hmatch := hm.2
    rw [mkTagFilter_nonempty t ht, docMatches_tagFilter d t (hwf d hm.1)] at hmatch
    exact hmatch
  · intro d hmem hfc hd
    have hm := get_documents_subset_matching db c _ limit d hd
    have hmatch := hm.2
    rw [mkTagFilter_nonempty t ht, docMatches_tagFilter d t (hwf d hm.1)] at hmatch
    rw [hfc] at hmatch
    cases hmatch

theorem wTagDb_wf : ∀ d ∈ DB.find wTagDb "tip", tagsWellFormed d = true := by
  show ∀ d ∈ [exPost1, exPost2], tagsWellFormed d = true
  intro d hd
  rcases List.mem_cons.mp hd with h | h
  · rw [h]; rfl
  · rcases List.mem_cons.mp h with h2 | h2
    · rw [h2]; rfl
    · exact absurd h2 (List.not_mem_nil d)

/-- C8 witness: the tag filter at a concrete two-tip store — the tip
tagged "x" is kept and the tip tagged only "y" is excluded. -/
theorem listing_tag_filter_witness :
    ("x" : String).isEmpty = false
    ∧ (∀ d ∈ DB.find wTagDb "tip", tagsWellFormed d = true)
    ∧ (∀ d ∈ get_documents wTagDb "tip" (mkTagFilter (some "x")) (some 50),
        tagsContain d "x" = true)
    ∧ (∀ d ∈ DB.find wTagDb "tip", tagsContain d "x" = false →
        d ∉ get_documents wTagDb "tip" (mkTagFilter (some "x")) (some 50)) :=
  ⟨rfl, wTagDb_wf,
   (listing_tag_filter wTagDb "tip" "x" (some 50) rfl wTagDb_wf).1,
   (listing_tag_filter wTagDb "tip" "x" (some 50) rfl wTagDb_wf).2.1⟩

theorem seed_demo_chain (db : DB) :
    seed_demo db
      = seedStep "ebooktest" "ebooktests" (List.map Ebooktest.toDoc demoEbooktests)
          (seedChain3 db) := rfl

theorem seedStep_run_fst (c label : String) (docs : List Doc)
    (st : List (String × Nat) × DB) (h : count_documents st.2 c [] = 0) :
    (seedStep c label docs st).1 = st.1 ++ [(label, docs.length)] := by
  rw [seedStep_run c label docs st h]

theorem seedStep_run_snd (c label : String) (docs : List Doc)
    (st : List (String × Nat) × DB) (h : count_documents st.2 c [] = 0) :
    (seedStep c label docs st).2
      = List.foldl (fun db d => (create_document c d db).2) st.2 docs := by
  rw [seedStep_run c label docs st h]

theorem seedChain1_find_tip (db : DB) :
    DB.find (seedChain1 db).2 "tip" = DB.find db "tip" := by
  unfold seedChain1
  rw [seedStep_find_other "blogpost" "tip" _ _ _ (by decide)]

theorem seedChain2_find_challenge (db : DB) :
    DB.find (seedChain2 db).2 "challenge" = DB.find db "challenge" := by
  unfold seedChain2 seedChain1
  rw [seedStep_find_other "tip" "challenge" _ _ _ (by decide),
    seedStep_find_other "blogpost" "challenge" _ _ _ (by decide)]

theorem seedChain3_find_ebooktest (db : DB) :
    DB.find (seedChain3 db).2 "ebooktest" = DB.find db "ebooktest" := by
  unfold seedChain3 seedChain2 seedChain1
  rw [seedStep_find_other "challenge" "ebooktest" _ _ _ (by decide),
    seedStep_find_other "tip" "ebooktest" _ _ _ (by decide),
    seedStep_find_other "blogpost" "ebooktest" _ _ _ (by decide)]

theorem seed_blogposts_empty (db : DB) (h : count_documents db "blogpost" [] = 0) :
    ("blogposts", 2) ∈ (seed_demo db).1
    ∧ (DB.find (seed_demo db).2 "blogpost").length
        = (DB.find db "blogpost").length + 2 := by
  have h1 : count_documents (([], db) : List (String × Nat) × DB).2 "blogpost" [] = 0 := h
  constructor
  · rw [seed_demo_chain db]
    apply seedStep_mem_preserved
    unfold seedChain3
    apply seedStep_mem_preserved
    unfold seedChain2
    apply seedStep_mem_preserved
    unfold seedChain1
    rw [seedStep_run_fst _ _ _ _ h1]
    show ("blogposts", 2) ∈ [] ++ [("blogposts", 2)]
    simp
  · rw [seed_demo_chain db,
      seedStep_find_other "ebooktest" "blogpost" _ _ _ (by decide)]
    unfold seedChain3
    rw [seedStep_find_other "challenge" "blogpost" _ _ _ (by decide)]
    unfold seedChain2
    rw [seedStep_find_other "tip" "blogpost" _ _ _ (by decide)]
    unfold seedChain1
    rw [seedStep_run_snd _ _ _ _ h1, find_foldl_create_length]
    rfl

theorem seed_blogposts_nonempty (db : DB) (h : count_documents db "blogpost" [] ≠ 0) :
    DB.find (seed_demo db).2 "blogpost" = DB.find db "blogpost"
    ∧ "blogposts" ∉ List.map Prod.fst (seed_demo db).1 := by
  have h1 : count_documents (([], db) : List (String × Nat) × DB).2 "blogpost" [] ≠ 0 := h
  have hskip := seedStep_skip "blogpost" "blogposts"
    (List.map Blogpost.toDoc demoBlogposts) ([], db) h1
  constructor
  · rw [seed_demo_chain db,
      seedStep_find_other "ebooktest" "blogpost" _ _ _ (by decide)]
    unfold seedChain3
    rw [seedStep_find_other "challenge" "blogpost" _ _ _ (by decide)]
    unfold seedChain2
    rw [seedStep_find_other "tip" "blogpost" _ _ _ (by decide)]
    unfold seedChain1
    rw [hskip]
  · intro hmem
    rw [seed_demo_chain db] at hmem
    rcases seedStep_fst_cases _ _ _ _ _ hmem with hmem | heq
    · unfold seedChain3 at hmem
      rcases seedStep_fst_cases _ _ _ _ _ hmem with hmem | heq
      · unfold seedChain2 at hmem
        rcases seedStep_fst_cases _ _ _ _ _ hmem with hmem | heq
        · unfold seedChain1 at hmem
          rw [hskip] at hmem
          simp at hmem
        · exact absurd heq (by decide)
      · exact absurd heq (by decide)
    · exact absurd heq (by decide)

theorem seed_tips_empty (db : DB) (h : count_documents db "tip" [] = 0) :
    ("tips", 2) ∈ (seed_demo db).1
    ∧ (DB.find (seed_demo db).2 "tip").length = (DB.find db "tip").length + 2 := by
  have h1 : count_documents (seedChain1 db).2 "tip" [] = 0 := by
    rw [count_documents_nil_filter, seedChain1_find_tip db]
    rw [count_documents_nil_filter] at h
    exact h
  constructor
  · rw [seed_demo_chain db]
    apply seedStep_mem_preserved
    unfold seedChain3
    apply seedStep_mem_preserved
    unfold seedChain2
    rw [seedStep_run_fst _ _ _ _ h1]
    apply List.mem_append_right
    show ("tips", 2) ∈ [("tips", 2)]
    simp
  · rw [seed_demo_chain db,
      seedStep_find_other "ebooktest" "tip" _ _ _ (by decide)]
    unfold seedChain3
    rw [seedStep_find_other "challenge" "tip" _ _ _ (by decide)]
    unfold seedChain2
    rw [seedStep_run_snd _ _ _ _ h1, find_foldl_create_length, seedChain1_find_tip db]
    rfl

theorem seed_tips_nonempty (db : DB) (h : count_documents db "tip" [] ≠ 0) :
    DB.find (seed_demo db).2 "tip" = DB.find db "tip"
    ∧ "tips" ∉ List.map Prod.fst (seed_demo db).1 := by
  have h1 : count_documents (seedChain1 db).2 "tip" [] ≠ 0 := by
    rw [count_documents_nil_filter, seedChain1_find_tip db]
    rw [count_documents_nil_filter] at h
    exact h
  have hskip := seedStep_skip "tip" "tips" (List.map Tip.toDoc demoTips) (seedChain1 db) h1
  constructor
  · rw [seed_demo_chain db,
      seedStep_find_other "ebooktest" "tip" _ _ _ (by decide)]
    unfold seedChain3
    rw [seedStep_find_other "challenge" "tip" _ _ _ (by decide)]
    unfold seedChain2
    rw [hskip, seedChain1_find_tip db]
  · intro hmem
    rw [seed_demo_chain db] at hmem
    rcases seedStep_fst_cases _ _ _ _ _ hmem with hmem | heq
    · unfold seedChain3 at hmem
      rcases seedStep_fst_cases _ _ _ _ _ hmem with hmem | heq
      · unfold seedChain2 at hmem
        rw [hskip] at hmem
        unfold seedChain1 at hmem
        rcases seedStep_fst_cases _ _ _ _ _ hmem with hmem | heq
        · simp at hmem
        · exact absurd heq (by decide)
      · exact absurd heq (by decide)
    · exact absurd heq (by decide)

theorem seed_challenges_empty (db : DB) (h : count_documents db "challenge" [] = 0) :
    ("challenges", 2) ∈ (seed_demo db).1
    ∧ (DB.find (seed_demo db).2 "challenge").length
        = (DB.find db "challenge").length + 2 := by
  have h1 : count_documents (seedChain2 db).2 "challenge" [] = 0 := by
    rw [count_documents_nil_filter, seedChain2_find_challenge db]
    rw [count_documents_nil_filter] at h
    exact h
  constructor
  · rw [seed_demo_chain db]
    apply seedStep_mem_preserved
    unfold seedChain3
    rw [seedStep_run_fst _ _ _ _ h1]
    apply List.mem_append_right
    show ("challenges", 2) ∈ [("challenges", 2)]
    simp
  · rw [seed_demo_chain db,
      seedStep_find_other "ebooktest" "challenge" _ _ _ (by decide)]
    unfold seedChain3
    rw [seedStep_run_snd _ _ _ _ h1, find_foldl_create_length,
      seedChain2_find_challenge db]
    rfl

theorem seed_challenges_nonempty (db : DB) (h : count_documents db "challenge" [] ≠ 0) :
    DB.find (seed_demo db).2 "challenge" = DB.find db "challenge"
    ∧ "challenges" ∉ List.map Prod.fst (seed_demo db).1 := by
  have h1 : count_documents (seedChain2 db).2 "challenge" [] ≠ 0 := by
    rw [count_documents_nil_filter, seedChain2_find_challenge db]
    rw [count_documents_nil_filter] at h
    exact h
  have hskip := seedStep_skip "challenge" "challenges"
    (List.map Challenge.toDoc demoChallenges) (seedChain2 db) h1
  constructor
  · rw [seed_demo_chain db,
      seedStep_find_other "ebooktest" "challenge" _ _ _ (by decide)]
    unfold seedChain3
    rw [hskip, seedChain2_find_challenge db]
  · intro hmem
    rw [seed_demo_chain db] at hmem
    rcases seedStep_fst_cases _ _ _ _ _ hmem with hmem | heq
    · unfold seedChain3 at hmem
      rw [hskip] at hmem
      unfold seedChain2 at hmem
      rcases seedStep_fst_cases _ _ _ _ _ hmem with hmem | heq
      · unfold seedChain1 at hmem
        rcases seedStep_fst_cases _ _ _ _ _ hmem with hmem | heq
        · simp at hmem
        · exact absurd heq (by decide)
      · exact absurd heq (by decide)
    · exact absurd heq (by decide)

theorem seed_ebooktests_empty (db : DB) (h : count_documents db "ebooktest" [] = 0) :
    ("ebooktests", 1) ∈ (seed_demo db).1
    ∧ (DB.find (seed_demo db).2 "ebooktest").length
        = (DB.find db "ebooktest").length + 1 := by
  have h1 : count_documents (seedChain3 db).2 "ebooktest" [] = 0 := by
    rw [count_documents_nil_filter, seedChain3_find_ebooktest db]
    rw [count_documents_nil_filter] at h
    exact h
  constructor
  · rw [seed_demo_chain db, seedStep_run_fst _ _ _ _ h1]
    apply List.mem_append_right
    show ("ebooktests", 1) ∈ [("ebooktests", 1)]
    simp
  · rw [seed_demo_chain db, seedStep_run_snd _ _ _ _ h1, find_foldl_create_length,
      seedChain3_find_ebooktest db]
    rfl

theorem seed_ebooktests_nonempty (db : DB) (h : count_documents db "ebooktest" [] ≠ 0) :
    DB.find (seed_demo db).2 "ebooktest" = DB.find db "ebooktest"
    ∧ "ebooktests" ∉ List.map Prod.fst (seed_demo db).1 := by
  have h1 : count_documents (seedChain3 db).2 "ebooktest" [] ≠ 0 := by
    rw [count_documents_nil_filter, seedChain3_find_ebooktest db]
    rw [count_documents_nil_filter] at h
    exact h
  have hskip := seedStep_skip "ebooktest" "ebooktests"
    (List.map Ebooktest.toDoc demoEbooktests) (seedChain3 db) h1
  constructor
  · rw [seed_demo_chain db, hskip, seedChain3_find_ebooktest db]
  · intro hmem
    rw [seed_demo_chain db, hskip] at hmem
    unfold seedChain3 at hmem
    rcases seedStep_fst_cases _ _ _ _ _ hmem with hmem | heq
    · unfold seedChain2 at hmem
      rcases seedStep_fst_cases _ _ _ _ _ hmem with hmem | heq
      · unfold seedChain1 at hmem
        rcases seedStep_fst_cases _ _ _ _ _ hmem with hmem | heq
        · simp at hmem
        · exact absurd heq (by decide)
      · exact absurd heq (by decide)
    · exact absurd heq (by decide)

theorem seed_all_nonempty (db : DB) :
    (DB.find (seed_demo db).2 "blogpost").length ≠ 0
    ∧ (DB.find (seed_demo db).2 "tip").length ≠ 0
    ∧ (DB.find (seed_demo db).2 "challenge").length ≠ 0
    ∧ (DB.find (seed_demo db).2 "ebooktest").length ≠ 0 := by
  refine ⟨?_, ?_, ?_, ?_⟩
  · rw [seed_demo_chain db,
      seedStep_find_other "ebooktest" "blogpost" _ _ _ (by decide)]
    unfold seedChain3
    rw [seedStep_find_other "challenge" "blogpost" _ _ _ (by decide)]
    unfold seedChain2
    rw [seedStep_find_other "tip" "blogpost" _ _ _ (by decide)]
    unfold seedChain1
    exact seedStep_find_len_pos "blogpost" _ _ _ (by decide)
  · rw [seed_demo_chain db,
      seedStep_find_other "ebooktest" "tip" _ _ _ (by decide)]
    unfold seedChain3
    rw [seedStep_find_other "challenge" "tip" _ _ _ (by decide)]
    unfold seedChain2
    exact seedStep_find_len_pos "tip" _ _ _ (by decide)
  · rw [seed_demo_chain db,
      seedStep_find_other "ebooktest" "challenge" _ _ _ (by decide)]
    unfold seedChain3
    exact seedStep_find_len_pos "challenge" _ _ _ (by decide)
  · rw [seed_demo_chain db]
    exact seedStep_find_len_pos "ebooktest" _ _ _ (by decide)

theorem seed_demo_of_all_nonempty (X : DB)
    (hb : (DB.find X "blogpost").length ≠ 0)
    (ht : (DB.find X "tip").length ≠ 0)
    (hc : (DB.find X "challenge").length ≠ 0)
    (he : (DB.find X "ebooktest").length ≠ 0) :
    seed_demo X = ([], X) := by
  have h1 : seedStep "blogpost" "blogposts" (List.map Blogpost.toDoc demoBlogposts)
      ([], X) = ([], X) := by
    apply seedStep_skip
    show count_documents X "blogpost" [] ≠ 0
    rw [count_documents_nil_filter]
    exact hb
  have h2 : seedStep "tip" "tips" (List.map Tip.toDoc demoTips)
      ([], X) = ([], X) := by
    apply seedStep_skip
    show count_documents X "tip" [] ≠ 0
    rw [count_documents_nil_filter]
    exact ht
  have h3 : seedStep "challenge" "challenges" (List.map Challenge.toDoc demoChallenges)
      ([], X) = ([], X) := by
    apply seedStep_skip
    show count_documents X "challenge" [] ≠ 0
    rw [count_documents_nil_filter]
    exact hc
  have h4 : seedStep "ebooktest" "ebooktests" (List.map Ebooktest.toDoc demoEbooktests)
      ([], X) = ([], X) := by
    apply seedStep_skip
    show count_documents X "ebooktest" [] ≠ 0
    rw [count_documents_nil_filter]
    exact he
  rw [seed_demo_chain X]
  unfold seedChain3 seedChain2 seedChain1
  rw [h1, h2, h3, h4]

theorem seed_demo_idem (db : DB) :
    seed_demo (seed_demo db).2 = ([], (seed_demo db).2) :=
  seed_demo_of_all_nonempty (seed_demo db).2
    (seed_all_nonempty db).1 (seed_all_nonempty db).2.1
    (seed_all_nonempty db).2.2.1 (seed_all_nonempty db).2.2.2

/-- C9: seeding is idempotent per collection — each currently-empty
collection receives the fixed demo dataset and its insert count is
reported; each non-empty collection is untouched and not reported; and a
second seed call reports no insertion for any collection and leaves the
store unchanged. -/
theorem seed_demo_contract (db : DB) :
    ((count_documents db "blogpost" [] = 0 →
        ("blogposts", 2) ∈ (seed_demo db).1
        ∧ (DB.find (seed_demo db).2 "blogpost").length
            = (DB.find db "blogpost").length + 2)
     ∧ (count_documents db "blogpost" [] ≠ 0 →
        DB.find (seed_demo db).2 "blogpost" = DB.find db "blogpost"
        ∧ "blogposts" ∉ List.map Prod.fst (seed_demo db).1))
  ∧ ((count_documents db "tip" [] = 0 →
        ("tips", 2) ∈ (seed_demo db).1
        ∧ (DB.find (seed_demo db).2 "tip").length = (DB.find db "tip").length + 2)
     ∧ (count_documents db "tip" [] ≠ 0 →
        DB.find (seed_demo db).2 "tip" = DB.find db "tip"
        ∧ "tips" ∉ List.map Prod.fst (seed_demo db).1))
  ∧ ((count_documents db "challenge" [] = 0 →
        ("challenges", 2) ∈ (seed_demo db).1
        ∧ (DB.find (seed_demo db).2 "challenge").length
            = (DB.find db "challenge").length + 2)
     ∧ (count_documents db "challenge" [] ≠ 0 →
        DB.find (seed_demo db).2 "challenge" = DB.find db "challenge"
        ∧ "challenges" ∉ List.map Prod.fst (seed_demo db).1))
  ∧ ((count_documents db "ebooktest" [] = 0 →
        ("ebooktests", 1) ∈ (seed_demo db).1
        ∧ (DB.find (seed_demo db).2 "ebooktest").length
            = (DB.find db "ebooktest").length + 1)
     ∧ (count_documents db "ebooktest" [] ≠ 0 →
        DB.find (seed_demo db).2 "ebooktest" = DB.find db "ebooktest"
        ∧ "ebooktests" ∉ List.map Prod.fst (seed_demo db).1))
  ∧ (seed_demo (seed_demo db).2).1 = []
  ∧ (seed_demo (seed_demo db).2).2 = (seed_demo db).2 := by
  refine ⟨⟨seed_blogposts_empty db, seed_blogposts_nonempty db⟩,
    ⟨seed_tips_empty db, seed_tips_nonempty db⟩,
    ⟨seed_challenges_empty db, seed_challenges_nonempty db⟩,
    ⟨seed_ebooktests_empty db, seed_ebooktests_nonempty db⟩, ?_, ?_⟩
  · rw [seed_demo_idem db]
  · rw [seed_demo_idem db]

/-- C9 witness: seeding the empty store inserts and reports the demo
datasets, and the second call reports nothing and changes nothing. -/
theorem seed_demo_contract_witness :
    count_documents ⟨[], 0⟩ "blogpost" [] = 0
    ∧ (("blogposts", 2) ∈ (seed_demo ⟨[], 0⟩).1
       ∧ (DB.find (seed_demo ⟨[], 0⟩).2 "blogpost").length
           = (DB.find ⟨[], 0⟩ "blogpost").length + 2)
    ∧ (seed_demo (seed_demo ⟨[], 0⟩).2).1 = []
    ∧ (seed_demo (seed_demo ⟨[], 0⟩).2).2 = (seed_demo ⟨[], 0⟩).2 :=
  ⟨rfl, (seed_demo_contract ⟨[], 0⟩).1.1 rfl,
   (seed_demo_contract ⟨[], 0⟩).2.2.2.2.1,
   (seed_demo_contract ⟨[], 0⟩).2.2.2.2.2⟩
